import Mathlib

/-!
Shallow embedding of the tauri `deep-link` plugin core
(`plugins/deep-link/src/lib.rs`) and verification of its specification.

The plugin has two build-time variants:
* the non-android variant keeps a `Mutex<Option<Vec<Url>>>` Link Cache
  (`last_link`) that the macOS/iOS `RunEvent::Opened` handler overwrites;
* the android variant wraps a `PluginHandle` and talks to the foreign mobile
  runtime: a persistent channel callback broadcasts each incoming payload, and
  `get_last_link` performs the synchronous foreign `getLastLink` call.

URLs (`url::Url`) are modelled as opaque strings; the plugin never inspects
them beyond validated syntax.
-/

/-- `url::Url`, treated as an opaque validated string. -/
abbrev Url := String

/-- `crate::Error` (from `mod error`); for the behaviour verified here only its
role as the `Err` channel of `crate::Result` matters, `pluginInvoke` being the
image of a mobile-plugin invoke error under `Into::into`. -/
inductive Error
  | pluginInvoke (message : String)
  deriving DecidableEq

/-- A `serde_json::Value`. -/
inductive Json
  | null
  | bool (b : Bool)
  | num (n : Int)
  | str (s : String)
  | arr (items : List Json)
  | obj (fields : List (String × Json))

/-- `serde_json::Value::get` with a string key: field lookup on objects,
`None` on every other kind of value. -/
def jsonGet : Json → String → Option Json
  | Json.obj fields, key => (fields.find? (fun f => f.1 == key)).map (fun f => f.2)
  | _, _ => none

/-- `serde_json::Value::as_str`. -/
def jsonAsStr : Json → Option String
  | Json.str s => some s
  | _ => none

/-- `tauri::ipc::InvokeBody`: a JSON body or a raw byte body. -/
inductive InvokeBody
  | json (payload : Json)
  | raw (data : List Nat)

/-- A lowercase hexadecimal digit, as used by `serde_json`. -/
def hexDigit (n : Nat) : Char :=
  if n < 10 then Char.ofNat (48 + n) else Char.ofNat (87 + n)

/-- `serde_json` escaping of a single character inside a JSON string. -/
def escapeChar (c : Char) : String :=
  if c = Char.ofNat 34 then "\\\""
  else if c = Char.ofNat 92 then "\\\\"
  else if c = Char.ofNat 8 then "\\b"
  else if c = Char.ofNat 12 then "\\f"
  else if c = Char.ofNat 10 then "\\n"
  else if c = Char.ofNat 13 then "\\r"
  else if c = Char.ofNat 9 then "\\t"
  else if c.toNat < 32 then
    "\\u00" ++ String.mk [hexDigit ((c.toNat / 16) % 16), hexDigit (c.toNat % 16)]
  else String.singleton c

/-- `serde_json` encoding of a string value. -/
def jsonEncodeString (s : String) : String :=
  "\"" ++ String.join (s.toList.map escapeChar) ++ "\""

/-- `serde_json` encoding of an `Option<String>`: `null` or a string. -/
def jsonEncodeOptStr : Option String → String
  | none => "null"
  | some s => jsonEncodeString s

/-- `serde_json::to_string` of a `Vec<Option<String>>` (compact array form). -/
def jsonEncodeOptStrList (xs : List (Option String)) : String :=
  "[" ++ String.intercalate "," (xs.map jsonEncodeOptStr) ++ "]"

/-- The observable operations a handler may perform through the `AppHandle`:
the legacy global trigger (JSON-string payload), the typed `emit_all`
(structured payload), and a Link Cache replace.  `cacheReplace` is listed so
that its absence from a handler's effect trace is expressible; the android
channel handler in the source only ever triggers and emits. -/
inductive HandlerEffect
  | triggerGlobal (event : String) (payload : String)
  | emitAll (event : String) (payload : List (Option Url))
  | cacheReplace (urls : List Url)
  deriving DecidableEq

/-- The url extraction of the android channel handler:
`payload.get("url").and_then(|v| v.as_str()).map(|s| s.to_owned())` on a JSON
body, `None` on any other body. -/
def decodeUrl : InvokeBody → Option Url
  | InvokeBody.json payload => (jsonGet payload "url").bind jsonAsStr
  | InvokeBody.raw _ => none

/-- The android channel handler registered through `setEventHandler`
(`init_deep_link`, android branch): extract the optional url, build
`payload = vec![url]`, then fire `trigger_global` with the JSON encoding of
`payload` followed by `emit_all` with `payload` itself.  (The `println!`
logging is not an observable effect.)  No cache operation appears. -/
def channelHandler (event : InvokeBody) : List HandlerEffect :=
  let url := decodeUrl event
  let payload := [url]
  [HandlerEffect.triggerGlobal "deep-link://new-url" (jsonEncodeOptStrList payload),
   HandlerEffect.emitAll "deep-link://new-url" payload]

/-- Whether an effect is a Link Cache replace. -/
def isCacheReplace : HandlerEffect → Bool
  | HandlerEffect.cacheReplace _ => true
  | _ => false

/-- The string payloads handed to `trigger_global` within an effect trace. -/
def triggerPayloads (effects : List HandlerEffect) : List String :=
  effects.filterMap fun e =>
    match e with
    | HandlerEffect.triggerGlobal _ p => some p
    | _ => none

/-- The structured payloads handed to `emit_all` within an effect trace. -/
def emitPayloads (effects : List HandlerEffect) : List (List (Option Url)) :=
  effects.filterMap fun e =>
    match e with
    | HandlerEffect.emitAll _ p => some p
    | _ => none

/-- The android `DeepLink` struct:
`pub struct DeepLink<R: Runtime>(pub(crate) PluginHandle<R>)`.  The handle is
only a conduit for foreign calls and carries no link state. -/
structure AndroidDeepLink where
  handle : Unit

/-- `imp::LastUrl` (android): the decoded reply of the foreign `getLastLink`
call, an optional url. -/
structure LastUrl where
  url : Option Url
  deriving DecidableEq

/-- Android `get_last_link`: run the foreign `getLastLink` mobile-plugin call
(whose reply, or invoke failure, is the `reply` argument), map the optional
url to a singleton vector (`v.url.map(|url| vec![url])`), and convert a
failure into `crate::Error` (`map_err(Into::into)`). -/
def androidGetLastLink (s : AndroidDeepLink) (reply : Except String LastUrl) :
    Except Error (Option (List Url)) :=
  match s, reply with
  | _, Except.ok v => Except.ok (v.url.map fun u => [u])
  | _, Except.error e => Except.error (Error.pluginInvoke e)

/-- One foreign callback invocation on android: the channel handler fires its
effects; the plugin state has no field the closure could mutate, so it is
returned unchanged. -/
def androidHandleEvent (s : AndroidDeepLink) (body : InvokeBody) :
    AndroidDeepLink × List HandlerEffect :=
  (s, channelHandler body)

/-- The android plugin state after a sequence of callback invocations. -/
def androidRun (s : AndroidDeepLink) (bodies : List InvokeBody) : AndroidDeepLink :=
  bodies.foldl (fun st b => (androidHandleEvent st b).1) s

/-- The non-android `DeepLink` struct, keeping the Link Cache slot
`last_link: Mutex<Option<Vec<Url>>>` (the `app` handle field plays no role in
the verified behaviour; the mutex is modelled by explicit state passing). -/
structure DeepLink where
  last_link : Option (List Url)

/-- `init_deep_link`, non-android branch: `last_link: Default::default()`,
i.e. the slot starts out empty. -/
def initDeepLink : DeepLink :=
  { last_link := none }

/-- Non-android `get_last_link`:
`Ok(self.last_link.lock().unwrap().clone())` — the returned value paired with
the (unchanged) state. -/
def getLastLinkRun (s : DeepLink) : Except Error (Option (List Url)) × DeepLink :=
  (Except.ok s.last_link, s)

/-- The value returned by the non-android `get_last_link`. -/
def get_last_link (s : DeepLink) : Except Error (Option (List Url)) :=
  (getLastLinkRun s).1

/-- The two `AppHandle` operations the macOS/iOS `RunEvent::Opened` handler
performs. -/
inductive OpenedAction
  | emitAll (urls : List Url)
  | replace (urls : List Url)
  deriving DecidableEq

/-- The `on_event` handler for `RunEvent::Opened { urls }`, in source order:
first `emit_all("deep-link://new-url", urls)`, then
`state::<DeepLink<R>>().last_link.lock().unwrap().replace(urls.clone())`. -/
def openedHandler (urls : List Url) : List OpenedAction :=
  [OpenedAction.emitAll urls, OpenedAction.replace urls]

/-- Effect of one action on the Link Cache slot: `emit_all` does not touch it,
`Option::replace` overwrites it wholesale. -/
def applyAction (s : Option (List Url)) : OpenedAction → Option (List Url)
  | OpenedAction.emitAll _ => s
  | OpenedAction.replace urls => some urls

/-- The Link Cache slot after an action sequence has run. -/
def runActions (s : Option (List Url)) (actions : List OpenedAction) : Option (List Url) :=
  actions.foldl applyAction s

/-- The cache contents visible to a subscriber at the moment the first publish
(`emit_all`) of an action sequence fires; `none` if the sequence never
publishes. -/
def stateAtFirstPublish : Option (List Url) → List OpenedAction → Option (Option (List Url))
  | _, [] => none
  | s, OpenedAction.emitAll _ :: _ => some s
  | s, OpenedAction.replace urls :: rest => stateAtFirstPublish (some urls) rest

/-- Ingesting one opened event on the non-android variant: the cache slot
after the `RunEvent::Opened` handler has run. -/
def ingestOpened (s : Option (List Url)) (urls : List Url) : Option (List Url) :=
  runActions s (openedHandler urls)

/-- The cache slot after a whole sequence of opened events. -/
def ingestAll (s : Option (List Url)) (events : List (List Url)) : Option (List Url) :=
  events.foldl ingestOpened s

/-- A channel payload that is a JSON object without the `url` field. -/
def malformedBody : InvokeBody :=
  InvokeBody.json (Json.obj [("href", Json.str "https://example.com")])

/-- A well-formed channel payload carrying `myapp://open?id=1`. -/
def openBody1 : InvokeBody :=
  InvokeBody.json (Json.obj [("url", Json.str "myapp://open?id=1")])

/-- A well-formed channel payload carrying `myapp://open?id=2`. -/
def openBody2 : InvokeBody :=
  InvokeBody.json (Json.obj [("url", Json.str "myapp://open?id=2")])

/-- Folding the opened-event handler over a sequence leaves exactly the last
event in the cache slot. -/
theorem ingestAll_getLast :
    ∀ (events : List (List Url)) (s : Option (List Url)) (e : List Url),
      events.getLast? = some e → ingestAll s events = some e := by
  intro events
  induction events with
  | nil => intro s e h; cases h
  | cons a rest ih =>
    intro s e h
    cases rest with
    | nil =>
      simp [List.getLast?] at h
      subst h
      rfl
    | cons b t =>
      have h2 : (b :: t).getLast? = some e := h
      exact ih (ingestOpened s a) e h2

/-- C1: last-write-wins — after a sequence of ingested opened events,
`get_last_link` returns exactly the last event's URL sequence, a wholesale
replacement with no remnant of any earlier event. -/
theorem C1_last_write_wins (s0 : Option (List Url)) (events : List (List Url))
    (e : List Url) (h : events.getLast? = some e) :
    get_last_link { last_link := ingestAll s0 events } = Except.ok (some e) := by
  have hfold := ingestAll_getLast events s0 e h
  simp [get_last_link, getLastLinkRun, hfold]

/-- Witness for C1 at the spec's two-event scenario. -/
theorem C1_witness :
    ([["myapp://open?id=1"], ["myapp://open?id=2", "myapp://open?id=3"]] :
        List (List Url)).getLast? = some ["myapp://open?id=2", "myapp://open?id=3"] ∧
      get_last_link
          (DeepLink.mk
            (ingestAll none
              [["myapp://open?id=1"], ["myapp://open?id=2", "myapp://open?id=3"]])) =
        Except.ok (some ["myapp://open?id=2", "myapp://open?id=3"]) :=
  ⟨by decide,
   C1_last_write_wins none [["myapp://open?id=1"], ["myapp://open?id=2", "myapp://open?id=3"]]
     ["myapp://open?id=2", "myapp://open?id=3"] (by decide)⟩

/-- C2 counterexample: in the `RunEvent::Opened` handler the publish fires
before the cache replace, so a subscriber who reads the cache at publish time
of `["myapp://open?id=1"]` from an empty cache observes `none`, a stale value,
not the just-published event. -/
theorem C2_counterexample :
    stateAtFirstPublish none (openedHandler ["myapp://open?id=1"]) = some none ∧
    (none : Option (List Url)) ≠ some ["myapp://open?id=1"] :=
  ⟨rfl, by decide⟩

/-- C2 (amended): the opened-event handler publishes first and replaces the
cache after: the cache state visible at the moment of publish is the prior
state, and the replace has completed only by the end of the handler. -/
theorem C2_publish_then_replace (s : Option (List Url)) (urls : List Url) :
    openedHandler urls = [OpenedAction.emitAll urls, OpenedAction.replace urls] ∧
    stateAtFirstPublish s (openedHandler urls) = some s ∧
    runActions s (openedHandler urls) = some urls :=
  ⟨rfl, rfl, rfl⟩

/-- C3 counterexample: a JSON payload without a `url` field decodes to no url,
yet the handler still broadcasts — `emit_all` is invoked with the singleton
`[null]` payload, so a publish is triggered. -/
theorem C3_counterexample :
    decodeUrl malformedBody = none ∧
    HandlerEffect.emitAll "deep-link://new-url" [none] ∈ channelHandler malformedBody :=
  ⟨rfl, by decide⟩

/-- C3 (amended): a malformed payload never performs a Link Cache replace
(the handler performs no cache operation at all), but it does trigger both
broadcasts, each carrying the singleton `[null]` payload. -/
theorem C3_malformed_publishes_null (body : InvokeBody) (h : decodeUrl body = none) :
    channelHandler body =
      [HandlerEffect.triggerGlobal "deep-link://new-url" (jsonEncodeOptStrList [none]),
       HandlerEffect.emitAll "deep-link://new-url" [none]] ∧
    (channelHandler body).filter isCacheReplace = [] := by
  have hc : channelHandler body =
      [HandlerEffect.triggerGlobal "deep-link://new-url" (jsonEncodeOptStrList [none]),
       HandlerEffect.emitAll "deep-link://new-url" [none]] := by
    simp [channelHandler, h]
  refine ⟨hc, ?_⟩
  rw [hc]
  rfl

/-- Witness for C3 at a payload whose JSON object lacks the `url` field. -/
theorem C3_witness :
    decodeUrl malformedBody = none ∧
    (channelHandler malformedBody =
        [HandlerEffect.triggerGlobal "deep-link://new-url" (jsonEncodeOptStrList [none]),
         HandlerEffect.emitAll "deep-link://new-url" [none]] ∧
      (channelHandler malformedBody).filter isCacheReplace = []) :=
  ⟨rfl, C3_malformed_publishes_null malformedBody rfl⟩

/-- C4 counterexample: when the foreign `getLastLink` call fails, the android
`get_last_link` returns that failure as an `Err`, not the successful absent
result `Ok(None)`. -/
theorem C4_counterexample :
    androidGetLastLink ⟨()⟩ (Except.error "connection reset") =
        Except.error (Error.pluginInvoke "connection reset") ∧
      (Except.error (Error.pluginInvoke "connection reset") :
          Except Error (Option (List Url))) ≠ Except.ok none :=
  ⟨rfl, fun h => Except.noConfusion h⟩

/-- C4 (amended): a foreign `getLastLink` failure is propagated: the android
`get_last_link` maps the invoke error into `crate::Error` and returns it as an
`Err` to the caller. -/
theorem C4_error_propagates (s : AndroidDeepLink) (e : String) :
    androidGetLastLink s (Except.error e) = Except.error (Error.pluginInvoke e) :=
  rfl

/-- C5 counterexample: after a callback invocation has delivered and published
the event `myapp://open?id=1`, an immediately following `get_last_link` whose
foreign reply is empty returns `none` — no local cache holds the event, so no
cached value is ever returned without the foreign call. -/
theorem C5_counterexample :
    HandlerEffect.emitAll "deep-link://new-url" [some "myapp://open?id=1"] ∈
        channelHandler openBody1 ∧
      androidGetLastLink (androidRun ⟨()⟩ [openBody1]) (Except.ok ⟨none⟩) =
        Except.ok none :=
  ⟨by decide, rfl⟩

/-- C5 (amended): the android `get_last_link` consults no local cache — the
android variant has none, and callback invocations leave the plugin state
unchanged — so every call performs the synchronous foreign query and returns
exactly its reply's optional url as a singleton, whatever was ingested
before. -/
theorem C5_always_queries_foreign (s : AndroidDeepLink) (bodies : List InvokeBody)
    (v : LastUrl) :
    androidGetLastLink (androidRun s bodies) (Except.ok v) =
      Except.ok (v.url.map fun u => [u]) :=
  rfl

/-- C6 counterexample: the payload `myapp://open?id=2` decodes successfully,
yet the handler's effect trace contains no Link Cache replace, so the event is
not pushed through a cache replace. -/
theorem C6_counterexample :
    decodeUrl openBody2 = some "myapp://open?id=2" ∧
    (channelHandler openBody2).filter isCacheReplace = [] :=
  ⟨rfl, rfl⟩

/-- C6 (amended): on successful decode exactly one singleton LinkEvent is
produced — only the single `url` string field is decoded, never multiple
entries — and it is pushed through both broadcasts, but through no Link Cache
replace (the android variant keeps no cache). -/
theorem C6_singleton_published_no_replace (body : InvokeBody) (u : Url)
    (h : decodeUrl body = some u) :
    channelHandler body =
      [HandlerEffect.triggerGlobal "deep-link://new-url" (jsonEncodeOptStrList [some u]),
       HandlerEffect.emitAll "deep-link://new-url" [some u]] ∧
    (channelHandler body).filter isCacheReplace = [] := by
  have hc : channelHandler body =
      [HandlerEffect.triggerGlobal "deep-link://new-url" (jsonEncodeOptStrList [some u]),
       HandlerEffect.emitAll "deep-link://new-url" [some u]] := by
    simp [channelHandler, h]
  refine ⟨hc, ?_⟩
  rw [hc]
  rfl

/-- Witness for C6 at a payload carrying `myapp://open?id=2`. -/
theorem C6_witness :
    decodeUrl openBody2 = some "myapp://open?id=2" ∧
    (channelHandler openBody2 =
        [HandlerEffect.triggerGlobal "deep-link://new-url"
           (jsonEncodeOptStrList [some "myapp://open?id=2"]),
         HandlerEffect.emitAll "deep-link://new-url" [some "myapp://open?id=2"]] ∧
      (channelHandler openBody2).filter isCacheReplace = []) :=
  ⟨rfl, C6_singleton_published_no_replace openBody2 "myapp://open?id=2" rfl⟩

/-- C7: initial emptiness — the non-android `DeepLink` is constructed with an
empty `last_link` slot, and before any event is ingested `get_last_link`
returns `Ok(None)`. -/
theorem C7_initially_none :
    initDeepLink.last_link = none ∧ get_last_link initDeepLink = Except.ok none :=
  ⟨rfl, rfl⟩

/-- C8: on every android callback invocation the two broadcast channels carry
consistent content — the string handed to the legacy global trigger is exactly
the JSON serialization of the list handed to the typed `emit_all`. -/
theorem C8_parallel_channels_consistent (body : InvokeBody) :
    triggerPayloads (channelHandler body) =
      (emitPayloads (channelHandler body)).map jsonEncodeOptStrList :=
  rfl

/-- C9: the non-android `get_last_link` is infallible and effect-free — it
returns `Ok` of (a clone of) the stored value and leaves the stored
`last_link` unchanged. -/
theorem C9_get_infallible_pure (s : DeepLink) :
    (getLastLinkRun s).1 = Except.ok s.last_link ∧ (getLastLinkRun s).2 = s :=
  ⟨rfl, rfl⟩

/-- C10: a successful android `get_last_link` result is `none` or a singleton
— the foreign `getLastLink` reply carries at most one optional url, which is
wrapped as `vec![url]`. -/
theorem C10_at_most_one_url (s : AndroidDeepLink) (reply : Except String LastUrl)
    (v : List Url) (h : androidGetLastLink s reply = Except.ok (some v)) :
    v.length = 1 := by
  cases reply with
  | error e => simp [androidGetLastLink] at h
  | ok lu =>
    have h2 : (Except.ok (lu.url.map fun u => [u]) : Except Error (Option (List Url))) =
        Except.ok (some v) := h
    cases hu : lu.url with
    | none => rw [hu] at h2; cases h2
    | some u =>
      rw [hu] at h2
      have h3 : some [u] = some v := by injection h2
      have h4 : [u] = v := by injection h3
      rw [← h4]
      rfl

/-- Witness for C10 at a foreign reply carrying one url. -/
theorem C10_witness :
    androidGetLastLink ⟨()⟩ (Except.ok ⟨some "myapp://open?id=9"⟩) =
        Except.ok (some ["myapp://open?id=9"]) ∧
      (["myapp://open?id=9"] : List Url).length = 1 :=
  ⟨rfl,
   C10_at_most_one_url ⟨()⟩ (Except.ok ⟨some "myapp://open?id=9"⟩)
     ["myapp://open?id=9"] rfl⟩
